import Mathlib

set_option linter.unusedVariables false

/-!
Verification development for
`nnunetv2/training/nnUNetTrainer/variants/network_architecture/nnUNetTrainer_HRNet.py`.

The file under study defines three trainer subclasses
(`nnUNetTrainer_HRNet18/32/48`) of the framework class
`nnUNetTrainerNoDeepSupervision`.  They override
`build_network_architecture`, and the 18-width variant additionally
overrides `on_train_start` and `perform_actual_validation`.

The embedding below models:
  * the data objects the file manipulates (plans manager, dataset json,
    configuration manager, label manager, networks) as plain structures;
  * framework functions that the file merely calls (`get_seg_model`,
    `predict_sliding_window_return_logits`, `compute_gaussian`, ...) as
    free constructors that record exactly the arguments they are given;
  * the two overridden stateful methods as functions from a trainer
    state to a list of effects (file writes, directory creation, log
    output, framework calls), in source order;
  * Python's extended slice `val_keys[start::step]` as `sliceEvery`.
-/

/-- Label manager produced by `plans_manager.get_label_manager(dataset_json)`
(framework object; only the attributes read by this file are modelled). -/
structure LabelManager where
  num_segmentation_heads : Nat
  foreground_labels : List Nat
  foreground_regions : List (List Nat)
  has_regions : Bool
  ignore_label : Option Nat
deriving DecidableEq

/-- The dataset.json content: the file reads `["file_ending"]` and passes the
whole object around; the rest of the content is abstracted as `raw`. -/
structure DatasetJson where
  file_ending : String
  raw : Nat
deriving DecidableEq

/-- Configuration manager attributes read by this file. -/
structure ConfigurationManager where
  patch_size : List Nat
  next_stage_names : Option (List String)
deriving DecidableEq

/-- Plans manager: `plans` content is abstracted as a `Nat` identifier;
`get_label_manager` and the reader/writer class are the members the file
uses. -/
structure PlansManager where
  plans : Nat
  get_label_manager : DatasetJson → LabelManager
  image_reader_writer : Nat

/-- An HRNet model configuration.  `MODEL_CONFIGS` lives in the framework
module `nnunetv2.network_architecture.hrnet.hrnet` (not part of the file
under study); it is modelled as an uninterpreted map that records the key,
so distinct keys give distinct configurations. -/
structure ModelConfig where
  key : String
deriving DecidableEq

/-- The framework dictionary `MODEL_CONFIGS`, modelled as a free map. -/
def MODEL_CONFIGS (k : String) : ModelConfig :=
  ModelConfig.mk k

/-- A constructed segmentation network.  `get_seg_model` is framework code;
the network is modelled as a record of the arguments it receives. -/
structure Network where
  cfg : ModelConfig
  num_classes : Nat
  input_channels : Nat
deriving DecidableEq

/-- Framework `get_seg_model(cfg, num_classes, input_channels=...)`,
modelled freely: it records its arguments. -/
def get_seg_model (cfg : ModelConfig) (num_classes : Nat) (input_channels : Nat) : Network :=
  Network.mk cfg num_classes input_channels

/-- `nnUNetTrainer_HRNet18.build_network_architecture` (source lines 29-38). -/
def nnUNetTrainer_HRNet18.build_network_architecture
    (plans_manager : PlansManager) (dataset_json : DatasetJson)
    (configuration_manager : ConfigurationManager)
    (num_input_channels : Nat) (enable_deep_supervision : Bool) : Network :=
  let label_manager := plans_manager.get_label_manager dataset_json
  get_seg_model (MODEL_CONFIGS "hrnet18") label_manager.num_segmentation_heads num_input_channels

/-- `nnUNetTrainer_HRNet32.build_network_architecture` (source lines 172-181). -/
def nnUNetTrainer_HRNet32.build_network_architecture
    (plans_manager : PlansManager) (dataset_json : DatasetJson)
    (configuration_manager : ConfigurationManager)
    (num_input_channels : Nat) (enable_deep_supervision : Bool) : Network :=
  let label_manager := plans_manager.get_label_manager dataset_json
  get_seg_model (MODEL_CONFIGS "hrnet32") label_manager.num_segmentation_heads num_input_channels

/-- `nnUNetTrainer_HRNet48.build_network_architecture` (source lines 189-197). -/
def nnUNetTrainer_HRNet48.build_network_architecture
    (plans_manager : PlansManager) (dataset_json : DatasetJson)
    (configuration_manager : ConfigurationManager)
    (num_input_channels : Nat) (enable_deep_supervision : Bool) : Network :=
  let label_manager := plans_manager.get_label_manager dataset_json
  get_seg_model (MODEL_CONFIGS "hrnet48") label_manager.num_segmentation_heads num_input_channels

/-! ## Class hierarchy and method resolution

The Python classes involved, with their (single-inheritance) parents, and
which of the three relevant methods each class body defines.  Only the
three HRNet classes are in the file under study; the two framework base
classes are included so that the subclass relation can be stated. -/

/-- The Python classes involved in the inheritance chain. -/
inductive TrainerClass where
  | nnUNetTrainer
  | nnUNetTrainerNoDeepSupervision
  | nnUNetTrainer_HRNet18
  | nnUNetTrainer_HRNet32
  | nnUNetTrainer_HRNet48
deriving DecidableEq

/-- The methods whose ownership the claims are about. -/
inductive MethodName where
  | build_network_architecture
  | on_train_start
  | perform_actual_validation
deriving DecidableEq

/-- Direct superclass, read off the `class` headers (source lines 24, 167,
184; the framework class `nnUNetTrainerNoDeepSupervision` extends
`nnUNetTrainer`). -/
def superclass : TrainerClass → Option TrainerClass
  | TrainerClass.nnUNetTrainer => none
  | TrainerClass.nnUNetTrainerNoDeepSupervision => some TrainerClass.nnUNetTrainer
  | TrainerClass.nnUNetTrainer_HRNet18 => some TrainerClass.nnUNetTrainerNoDeepSupervision
  | TrainerClass.nnUNetTrainer_HRNet32 => some TrainerClass.nnUNetTrainer_HRNet18
  | TrainerClass.nnUNetTrainer_HRNet48 => some TrainerClass.nnUNetTrainer_HRNet18

/-- Which class bodies define which of the three methods.  Read off the
source: `nnUNetTrainer_HRNet18` defines all three (lines 29, 40, 79);
`nnUNetTrainer_HRNet32` and `nnUNetTrainer_HRNet48` define only
`build_network_architecture` (lines 172, 189).  The framework base class
defines everything; whether `nnUNetTrainerNoDeepSupervision` overrides any
of the three does not affect resolution from the HRNet classes, since
`nnUNetTrainer_HRNet18` defines all three. -/
def definesMethod : TrainerClass → MethodName → Bool
  | TrainerClass.nnUNetTrainer, _ => true
  | TrainerClass.nnUNetTrainerNoDeepSupervision, _ => false
  | TrainerClass.nnUNetTrainer_HRNet18, _ => true
  | TrainerClass.nnUNetTrainer_HRNet32, m => m == MethodName.build_network_architecture
  | TrainerClass.nnUNetTrainer_HRNet48, m => m == MethodName.build_network_architecture

/-- Fuel-bounded attribute lookup along the superclass chain (Python's
single-inheritance method resolution). -/
def resolveMethod : Nat → TrainerClass → MethodName → Option TrainerClass
  | 0, _, _ => none
  | fuel + 1, c, m =>
    if definesMethod c m then some c
    else
      match superclass c with
      | none => none
      | some p => resolveMethod fuel p m

/-- Method resolution with enough fuel for the five-class hierarchy. -/
def lookupMethod (c : TrainerClass) (m : MethodName) : Option TrainerClass :=
  resolveMethod 5 c m

/-- The ancestors of a class (the class itself first), fuel-bounded. -/
def ancestorsFrom : Nat → TrainerClass → List TrainerClass
  | 0, c => [c]
  | fuel + 1, c =>
    c :: (match superclass c with
          | none => []
          | some p => ancestorsFrom fuel p)

/-- `c` is a (reflexive, direct or indirect) subclass of `d`. -/
def isSubclassOf (c d : TrainerClass) : Bool :=
  (ancestorsFrom 5 c).contains d

/-! ## Python extended slicing

`val_keys[start::step]` (source line 95) takes the elements at indices
`start, start + step, start + 2*step, ...`. -/

/-- Helper for `takeEvery`: the counter is how many elements remain to be
skipped before the next element is taken (structural recursion, so that
concrete slices reduce in the kernel). -/
def takeEveryAux : List α → Nat → Nat → List α
  | [], _, _ => []
  | a :: as, step, 0 => a :: takeEveryAux as step (step - 1)
  | _ :: as, step, c + 1 => takeEveryAux as step c

/-- Every `step`-th element of a list, starting with the head
(`l[::step]` for a non-negative `step`; after taking an element the slice
skips `step - 1` elements). -/
def takeEvery (l : List α) (step : Nat) : List α :=
  takeEveryAux l step 0

/-- Python's `l[start::step]`. -/
def sliceEvery (l : List α) (start step : Nat) : List α :=
  takeEvery (l.drop start) step

/-! ## Effects

The two overridden methods are modelled as functions from a trainer state
to the list of the externally visible actions they perform, in source
order.  Framework calls that write files or mutate the outside world are
recorded with the arguments the file passes them. -/

/-- Payload of a `save_json` call made by this file. -/
inductive JsonContent where
  | plansContent (plans : Nat)
  | datasetContent (dj : DatasetJson)
deriving DecidableEq

/-- `os.path.join` as used through `batchgenerators`' `join`. -/
def join (a b : String) : String :=
  a ++ "/" ++ b

/-- Abstract numpy arrays flowing through `perform_actual_validation`:
raw loaded arrays, `np.vstack`, and
`convert_labelmap_to_one_hot(seg[-1], ...)` are recorded as free terms. -/
inductive DataArr where
  | raw (id : Nat)
  | vstack (a b : DataArr)
  | one_hot (seg_last : DataArr) (labels : List Nat)
  | lastChannel (a : DataArr)
deriving DecidableEq

/-- Framework `convert_labelmap_to_one_hot(seg[-1], foreground_labels,
output_dtype=...)`, modelled freely (the dtype argument carries no
information at this level). -/
def convert_labelmap_to_one_hot (seg_last : DataArr) (labels : List Nat) : DataArr :=
  DataArr.one_hot seg_last labels

/-- Result of `dataset_val.load_case(k)`: `data, seg, properties`. -/
structure CaseData where
  data : DataArr
  seg : DataArr
  properties : Nat
deriving DecidableEq

/-- Result of framework `compute_gaussian(tile_size, sigma_scale=...)`,
modelled as the record of its arguments. -/
structure GaussianArr where
  tile_size : List Nat
  sigma_scale : ℚ
deriving DecidableEq

/-- Framework `compute_gaussian`, modelled freely. -/
def compute_gaussian (tile_size : List Nat) (sigma_scale : ℚ) : GaussianArr :=
  GaussianArr.mk tile_size sigma_scale

/-- `torch.from_numpy` applied to a Gaussian array: a value-preserving
wrapper (`values` recovers the wrapped array). -/
structure GaussianTensor where
  values : GaussianArr
deriving DecidableEq

/-- `torch.from_numpy`, value preserving. -/
def torch_from_numpy (g : GaussianArr) : GaussianTensor :=
  GaussianTensor.mk g

/-- The full argument tuple of a
`predict_sliding_window_return_logits` call (source lines 116-124). -/
structure SWCall where
  network : Network
  data : DataArr
  num_seg_heads : Nat
  tile_size : List Nat
  mirror_axes : Option (List Nat)
  tile_step_size : ℚ
  use_gaussian : Bool
  precomputed_gaussian : GaussianTensor
  perform_everything_on_gpu : Bool
  verbose : Bool
  device : String
deriving DecidableEq

/-- The logits returned by the framework sliding-window predictor,
modelled freely as the record of the call that produced them. -/
structure Logits where
  call : SWCall
deriving DecidableEq

/-- Framework `predict_sliding_window_return_logits`, modelled freely:
this file implements no tiling or blending itself, so the returned logits
are just the record of the delegated call. -/
def predict_sliding_window_return_logits (network : Network) (data : DataArr)
    (num_seg_heads : Nat) (tile_size : List Nat) (mirror_axes : Option (List Nat))
    (tile_step_size : ℚ) (use_gaussian : Bool) (precomputed_gaussian : GaussianTensor)
    (perform_everything_on_gpu : Bool) (verbose : Bool) (device : String) : Logits :=
  Logits.mk (SWCall.mk network data num_seg_heads tile_size mirror_axes tile_step_size
    use_gaussian precomputed_gaussian perform_everything_on_gpu verbose device)

/-- The numpy array obtained by `.cpu().numpy()` on the logits tensor
(value preserving). -/
structure Prediction where
  logits : Logits
deriving DecidableEq

/-- `.cpu().numpy()`, value preserving. -/
def tensor_cpu_numpy (t : Logits) : Prediction :=
  Prediction.mk t

/-- What is handed to the export worker: either the in-memory array or the
path of the `.npy` file it was spilled to. -/
inductive PredOrPath where
  | arr (p : Prediction)
  | file (path : String)
deriving DecidableEq

/-- Third-to-last argument group of `compute_metrics_on_folder`: region
based or label based evaluation. -/
inductive LabelsOrRegions where
  | labels (ls : List Nat)
  | regions (rs : List (List Nat))
deriving DecidableEq

/-- The externally visible actions of the two overridden methods, with the
arguments the file passes to the framework.  `mkdirp` creates a directory;
`saveJson`, `copyFile`, `unpackData`, `plotArch`, `saveNpy`, `exportPred`
and `computeMetrics` create or overwrite files; `logMsg`, `printPlans` and
`printStdout` produce log/console output. -/
inductive Effect where
  | initializeTrainer
  | mkdirp (path : String)
  | logMsg (msg : String)
  | printPlans
  | cudaEmptyCache
  | unpackData (folder : String) (unpack_seg overwrite : Bool) (num_processes : Nat)
  | barrier
  | getDataloaders
  | saveJson (content : JsonContent) (path : String)
  | copyFile (src dst : String)
  | plotArch (folder : String)
  | poolCreate (n : Nat)
  | printStdout (msg : String)
  | saveNpy (path : String) (value : Prediction)
  | exportPred (pred : PredOrPath) (properties : Nat) (cm : ConfigurationManager)
      (plans : Nat) (dj : DatasetJson) (target : String) (save_probabilities : Bool)
  | waitExports
  | poolClose
  | poolJoin
  | computeMetrics (gt_folder out_folder summary_file : String) (rw : Nat)
      (file_ending : String) (labels_or_regions : LabelsOrRegions) (ignore_label : Option Nat)
deriving DecidableEq

/-- `nnunetv2.configuration.default_num_processes` (framework constant;
its exact value is irrelevant to every claim). -/
def default_num_processes : Nat := 8

/-! ## Trainer state

The attributes of the trainer object that the two overridden methods
read.  Framework calls whose results the file consumes (`do_split`,
`load_case`, `should_i_save_to_file`, `get_allowed_n_proc_DA`) are
modelled as state components, i.e. as uninterpreted functions. -/

/-- The trainer attributes read by `on_train_start` and
`perform_actual_validation`. -/
structure TrainerState where
  was_initialized : Bool
  unpack_dataset : Bool
  is_ddp : Bool
  local_rank : Nat
  world_size : Nat
  cuda_available : Bool
  allowed_n_proc_DA : Nat
  output_folder : String
  output_folder_base : String
  preprocessed_dataset_folder : String
  preprocessed_dataset_folder_base : String
  folder_with_segs_from_previous_stage : Option String
  plans_manager : PlansManager
  dataset_json : DatasetJson
  configuration_manager : ConfigurationManager
  network : Network
  inference_allowed_mirroring_axes : Option (List Nat)
  is_cascaded : Bool
  device : String
  split : List String × List String
  load_case : String → CaseData
  should_i_save_to_file : String → Bool

/-- `self.label_manager` (a framework property defined as
`plans_manager.get_label_manager(dataset_json)`). -/
def TrainerState.label_manager (s : TrainerState) : LabelManager :=
  s.plans_manager.get_label_manager s.dataset_json

/-- The framework call `self.do_split()`, returning
`(train_keys, val_keys)`; its result is a state component. -/
def TrainerState.do_split (s : TrainerState) : List String × List String :=
  s.split

/-- The validation keys the loop iterates over (source lines 93-98):
the framework split, sharded by rank when DDP via
`val_keys[self.local_rank:: dist.get_world_size()]`. -/
def TrainerState.val_keys_used (s : TrainerState) : List String :=
  let val_keys := s.do_split.2
  if s.is_ddp then sliceEvery val_keys s.local_rank s.world_size else val_keys

/-! ## `on_train_start` (source lines 40-77) -/

/-- The effect trace of `nnUNetTrainer_HRNet18.on_train_start`, in source
order.  `self.initialize()`, `self.print_plans()`,
`self.get_dataloaders()` and `self.plot_network_architecture()` are
framework calls recorded as single effects (the last one, per the source
comment, produces a pdf in the output folder);
`round(get_allowed_n_proc_DA() // 2)` is integer floor division followed
by an identity `round`. -/
def on_train_start_trace (s : TrainerState) : List Effect :=
  (if !s.was_initialized then [Effect.initializeTrainer] else [])
  ++ [Effect.mkdirp s.output_folder]
  ++ [Effect.printPlans]
  ++ (if s.cuda_available then [Effect.cudaEmptyCache] else [])
  ++ (if s.unpack_dataset && (!s.is_ddp || s.local_rank == 0) then
        [Effect.logMsg "unpacking dataset...",
         Effect.unpackData s.preprocessed_dataset_folder true false
           (max 1 (s.allowed_n_proc_DA / 2)),
         Effect.logMsg "unpacking done..."]
      else [])
  ++ (if s.is_ddp then [Effect.barrier] else [])
  ++ [Effect.getDataloaders]
  ++ [Effect.saveJson (JsonContent.plansContent s.plans_manager.plans)
        (join s.output_folder_base "plans.json"),
      Effect.saveJson (JsonContent.datasetContent s.dataset_json)
        (join s.output_folder_base "dataset.json"),
      Effect.copyFile (join s.preprocessed_dataset_folder_base "dataset_fingerprint.json")
        (join s.output_folder_base "dataset_fingerprint.json"),
      Effect.plotArch s.output_folder]

/-! ## `perform_actual_validation` (source lines 79-164) -/

/-- The precomputed Gaussian (source lines 85-86):
`torch.from_numpy(compute_gaussian(self.configuration_manager.patch_size,
sigma_scale=1. / 8))`. -/
def inference_gaussian (s : TrainerState) : GaussianTensor :=
  torch_from_numpy (compute_gaussian s.configuration_manager.patch_size (1 / 8))

/-- The array handed to the predictor for case `k` (source lines 108-112):
the loaded data, `np.vstack`-ed with the one-hot previous-stage
segmentation when cascaded. -/
def case_input (s : TrainerState) (k : String) : DataArr :=
  let cd := s.load_case k
  if s.is_cascaded then
    DataArr.vstack cd.data
      (convert_labelmap_to_one_hot (DataArr.lastChannel cd.seg) s.label_manager.foreground_labels)
  else cd.data

/-- The prediction computed for case `k` (source lines 116-124). -/
def prediction_for (s : TrainerState) (k : String) : Prediction :=
  tensor_cpu_numpy
    (predict_sliding_window_return_logits s.network (case_input s k)
      s.label_manager.num_segmentation_heads
      s.configuration_manager.patch_size
      s.inference_allowed_mirroring_axes
      (1 / 2) true (inference_gaussian s) true false s.device)

/-- The sliding-window call underlying `prediction_for`. -/
def sw_call (s : TrainerState) (k : String) : SWCall :=
  (prediction_for s k).logits.call

/-- The effects of one iteration of the validation loop for case `k`
(source lines 106-146): log line, optional spill of the prediction to
disk, asynchronous export, and the cascade message when a next stage is
configured. -/
def case_effects (s : TrainerState) (save_probabilities : Bool) (k : String) : List Effect :=
  let vf := join s.output_folder "validation"
  let target := join vf k
  let pred := prediction_for s k
  [Effect.logMsg ("predicting " ++ k)]
  ++ (if s.should_i_save_to_file k then
        [Effect.saveNpy (target ++ ".npy") pred,
         Effect.exportPred (PredOrPath.file (target ++ ".npy")) (s.load_case k).properties
           s.configuration_manager s.plans_manager.plans s.dataset_json target save_probabilities]
      else
        [Effect.exportPred (PredOrPath.arr pred) (s.load_case k).properties
           s.configuration_manager s.plans_manager.plans s.dataset_json target save_probabilities])
  ++ (match s.configuration_manager.next_stage_names with
      | some _ => [Effect.printStdout "Cascade not supported here!"]
      | none => [])

/-- The effect trace of
`nnUNetTrainer_HRNet18.perform_actual_validation`, in source order.  The
keys the loop visits are `dataset_val.keys()`, i.e. the (rank-sharded)
validation keys handed to `nnUNetDataset`. -/
def perform_actual_validation_trace (s : TrainerState) (save_probabilities : Bool) : List Effect :=
  let vf := join s.output_folder "validation"
  [Effect.poolCreate default_num_processes, Effect.mkdirp vf]
  ++ (match s.configuration_manager.next_stage_names with
      | some ns => ns.map (fun n =>
          Effect.mkdirp (join (join s.output_folder_base "predicted_next_stage") n))
      | none => [])
  ++ s.val_keys_used.flatMap (case_effects s save_probabilities)
  ++ [Effect.waitExports, Effect.poolClose, Effect.poolJoin]
  ++ (if s.is_ddp then [Effect.barrier] else [])
  ++ (if !s.is_ddp || s.local_rank == 0 then
        [Effect.computeMetrics (join s.preprocessed_dataset_folder_base "gt_segmentations")
          vf (join vf "summary.json") s.plans_manager.image_reader_writer
          s.dataset_json.file_ending
          (if s.label_manager.has_regions then LabelsOrRegions.regions s.label_manager.foreground_regions
           else LabelsOrRegions.labels s.label_manager.foreground_labels)
          s.label_manager.ignore_label]
      else [])

/-! ## List lemmas about `sliceEvery` -/

theorem takeEveryAux_eq_drop (step : Nat) :
    ∀ (l : List α) (c : Nat), takeEveryAux l step c = takeEveryAux (l.drop c) step 0 := by
  intro l
  induction l with
  | nil => intro c; simp [takeEveryAux]
  | cons a as ih =>
    intro c
    cases c with
    | zero => rfl
    | succ c =>
      rw [List.drop_succ_cons]
      exact ih c

theorem takeEvery_nil (step : Nat) : takeEvery ([] : List α) step = [] :=
  rfl

theorem takeEvery_cons (a : α) (as : List α) (step : Nat) :
    takeEvery (a :: as) step = a :: takeEvery (as.drop (step - 1)) step := by
  show takeEveryAux (a :: as) step 0 = a :: takeEveryAux (as.drop (step - 1)) step 0
  rw [show takeEveryAux (a :: as) step 0 = a :: takeEveryAux as step (step - 1) from rfl]
  rw [takeEveryAux_eq_drop]

theorem sliceEvery_nil (r step : Nat) : sliceEvery ([] : List α) r step = [] := by
  simp [sliceEvery, takeEvery_nil]

theorem sliceEvery_cons_zero (a : α) (l : List α) (m : Nat) :
    sliceEvery (a :: l) 0 (m + 1) = a :: sliceEvery l m (m + 1) := by
  simp [sliceEvery, takeEvery_cons]

theorem sliceEvery_cons_succ (a : α) (l : List α) (r step : Nat) :
    sliceEvery (a :: l) (r + 1) step = sliceEvery l r step := by
  simp [sliceEvery]

theorem mem_of_mem_takeEvery (x : α) :
    ∀ (n : Nat) (l : List α), l.length ≤ n → ∀ step, x ∈ takeEvery l step → x ∈ l := by
  intro n
  induction n with
  | zero =>
    intro l hl step hx
    match l with
    | [] => simp [takeEvery_nil] at hx
  | succ n ih =>
    intro l hl step hx
    match l with
    | [] => simp [takeEvery_nil] at hx
    | a :: as =>
      rw [takeEvery_cons] at hx
      rcases List.mem_cons.1 hx with h | h
      · exact h ▸ List.mem_cons_self _ _
      · have hmem : x ∈ as.drop (step - 1) := by
          apply ih (as.drop (step - 1)) _ step h
          simp only [List.length_drop]
          simp only [List.length_cons] at hl
          omega
        exact List.mem_cons_of_mem _ (List.drop_subset _ _ hmem)

theorem mem_of_mem_sliceEvery (l : List α) (r step : Nat) (x : α)
    (hx : x ∈ sliceEvery l r step) : x ∈ l :=
  List.drop_subset _ _ (mem_of_mem_takeEvery x (l.drop r).length (l.drop r) le_rfl step hx)

theorem sum_sliceEvery_cons (a : α) (l : List α) (m : Nat) :
    (∑ r in Finset.range (m + 1), ((sliceEvery (a :: l) r (m + 1) : List α) : Multiset α))
      = a ::ₘ (∑ r in Finset.range (m + 1), ((sliceEvery l r (m + 1) : List α) : Multiset α)) := by
  rw [Finset.sum_range_succ' (fun r => ((sliceEvery (a :: l) r (m + 1) : List α) : Multiset α)) m]
  rw [Finset.sum_range_succ (fun r => ((sliceEvery l r (m + 1) : List α) : Multiset α)) m]
  simp only [sliceEvery_cons_succ, sliceEvery_cons_zero]
  rw [← Multiset.cons_coe, Multiset.add_cons]

theorem sum_sliceEvery (m : Nat) (l : List α) :
    (∑ r in Finset.range (m + 1), ((sliceEvery l r (m + 1) : List α) : Multiset α))
      = (l : Multiset α) := by
  induction l with
  | nil => simp [sliceEvery_nil]
  | cons a t ih =>
    rw [sum_sliceEvery_cons, ih, Multiset.cons_coe]

theorem count_sum_sliceEvery [DecidableEq α] (m : Nat) (l : List α) (a : α) :
    (∑ r in Finset.range (m + 1), (sliceEvery l r (m + 1)).count a) = l.count a := by
  have h := congrArg (Multiset.count a) (sum_sliceEvery m l)
  rw [Multiset.count_sum'] at h
  simpa [Multiset.coe_count] using h

theorem sliceEvery_disjoint_of_nodup [DecidableEq α] (l : List α) (m r r' : Nat)
    (hnd : l.Nodup) (hr : r < m + 1) (hr' : r' < m + 1) (hne : r ≠ r') :
    List.Disjoint (sliceEvery l r (m + 1)) (sliceEvery l r' (m + 1)) := by
  intro x hx hx'
  have h1 : 1 ≤ (sliceEvery l r (m + 1)).count x := by
    have := List.count_pos_iff.2 hx
    omega
  have h2 : 1 ≤ (sliceEvery l r' (m + 1)).count x := by
    have := List.count_pos_iff.2 hx'
    omega
  have hsum := count_sum_sliceEvery m l x
  have hle : l.count x ≤ 1 := List.nodup_iff_count_le_one.1 hnd x
  have hmem : r ∈ Finset.range (m + 1) := Finset.mem_range.2 hr
  have hmem' : r' ∈ (Finset.range (m + 1)).erase r :=
    Finset.mem_erase.2 ⟨Ne.symm hne, Finset.mem_range.2 hr'⟩
  have h3 : (sliceEvery l r (m + 1)).count x
        + ∑ i in (Finset.range (m + 1)).erase r, (sliceEvery l i (m + 1)).count x
      = ∑ i in Finset.range (m + 1), (sliceEvery l i (m + 1)).count x :=
    Finset.add_sum_erase (Finset.range (m + 1))
      (fun i => (sliceEvery l i (m + 1)).count x) hmem
  have h4 : (sliceEvery l r' (m + 1)).count x
      ≤ ∑ i in (Finset.range (m + 1)).erase r, (sliceEvery l i (m + 1)).count x :=
    Finset.single_le_sum (f := fun i => (sliceEvery l i (m + 1)).count x)
      (fun i _ => Nat.zero_le _) hmem'
  omega

/-! ## Classifying effects -/

/-- Effects that create or overwrite a persisted artifact (a file on
disk): json saves, file copies, dataset unpacking (which writes the
unpacked `.npy` data files), the network-architecture pdf, prediction
spills, exports, and the metrics summary.  Directory creation and
log/console output are not artifact writes. -/
def isArtifactWrite : Effect → Bool
  | Effect.saveJson _ _ => true
  | Effect.copyFile _ _ => true
  | Effect.unpackData _ _ _ _ => true
  | Effect.plotArch _ => true
  | Effect.saveNpy _ _ => true
  | Effect.exportPred _ _ _ _ _ _ _ => true
  | Effect.computeMetrics _ _ _ _ _ _ _ => true
  | _ => false

/-- The artifact-writing effects of a trace, in order. -/
def artifactWrites (tr : List Effect) : List Effect :=
  tr.filter isArtifactWrite

/-- Is this effect a `compute_metrics_on_folder` call? -/
def isMetricsCall : Effect → Bool
  | Effect.computeMetrics _ _ _ _ _ _ _ => true
  | _ => false

/-- The metric-computation calls of a trace, in order. -/
def metricsCalls (tr : List Effect) : List Effect :=
  tr.filter isMetricsCall

/-- The file paths an effect writes (empty for effects that write no
file). -/
def fileWriteTargets : Effect → List String
  | Effect.saveJson _ p => [p]
  | Effect.copyFile _ d => [d]
  | Effect.saveNpy p _ => [p]
  | Effect.exportPred _ _ _ _ _ t _ => [t]
  | Effect.computeMetrics _ _ summary _ _ _ _ => [summary]
  | _ => []

/-! ## Helper lemmas on traces -/

theorem filter_flatMap (l : List γ) (f : γ → List Effect) (p : Effect → Bool) :
    (l.flatMap f).filter p = l.flatMap (fun x => (f x).filter p) := by
  induction l with
  | nil => rfl
  | cons a t ih => simp [List.flatMap_cons, List.filter_append, ih]

theorem count_flatMap_eq_length (l : List γ) (f : γ → List Effect) (e : Effect)
    (h : ∀ x ∈ l, (f x).count e = 1) : (l.flatMap f).count e = l.length := by
  induction l with
  | nil => rfl
  | cons a t ih =>
    rw [List.flatMap_cons, List.count_append, h a (List.mem_cons_self a t),
      ih (fun x hx => h x (List.mem_cons_of_mem a hx))]
    simp [Nat.add_comm]

/-! ## Concrete states used by witnesses and counterexamples -/

/-- A concrete, fully specified trainer state (not DDP). -/
def baseState : TrainerState :=
  { was_initialized := true
    unpack_dataset := true
    is_ddp := false
    local_rank := 0
    world_size := 1
    cuda_available := false
    allowed_n_proc_DA := 12
    output_folder := "out/fold_0"
    output_folder_base := "out"
    preprocessed_dataset_folder := "pre/2d"
    preprocessed_dataset_folder_base := "pre"
    folder_with_segs_from_previous_stage := none
    plans_manager :=
      { plans := 7
        get_label_manager := fun _ =>
          { num_segmentation_heads := 3
            foreground_labels := [1, 2]
            foreground_regions := [[1, 2], [2]]
            has_regions := false
            ignore_label := none }
        image_reader_writer := 1 }
    dataset_json := { file_ending := ".nii.gz", raw := 5 }
    configuration_manager := { patch_size := [512, 512], next_stage_names := none }
    network := get_seg_model (MODEL_CONFIGS "hrnet18") 3 1
    inference_allowed_mirroring_axes := some [0, 1]
    is_cascaded := false
    device := "cuda"
    split := (["tr1", "tr2"], ["v1", "v2", "v3"])
    load_case := fun _ => { data := DataArr.raw 0, seg := DataArr.raw 1, properties := 0 }
    should_i_save_to_file := fun _ => false }

/-- `baseState` in DDP mode with two ranks, as rank 0. -/
def ddpState : TrainerState :=
  { baseState with is_ddp := true, world_size := 2 }

/-- `baseState` with a configured next stage (cascade). -/
def casState : TrainerState :=
  { baseState with
    configuration_manager := { patch_size := [512, 512], next_stage_names := some ["3d_fullres"] } }

/-! ## Dispatched method implementations

What a class's attribute lookup yields for the two stateful methods:
`some f` when it resolves to a definition of this file, `none` when it
resolves to framework code outside the file. -/

/-- The `on_train_start` implementation a class inherits or defines. -/
def classOnTrainStart (c : TrainerClass) : Option (TrainerState → List Effect) :=
  match lookupMethod c MethodName.on_train_start with
  | some TrainerClass.nnUNetTrainer_HRNet18 => some on_train_start_trace
  | _ => none

/-- The `perform_actual_validation` implementation a class inherits or
defines. -/
def classValidation (c : TrainerClass) : Option (TrainerState → Bool → List Effect) :=
  match lookupMethod c MethodName.perform_actual_validation with
  | some TrainerClass.nnUNetTrainer_HRNet18 => some perform_actual_validation_trace
  | _ => none

/-! ## Claims -/

/-- Claim C1: the three trainer variants select the HRNet backbone at
three widths: for every `plans_manager`, `dataset_json`,
`configuration_manager` and `num_input_channels`,
`nnUNetTrainer_HRNet18.build_network_architecture` returns
`get_seg_model(MODEL_CONFIGS['hrnet18'], n, input_channels=num_input_channels)`
(with `n` the `num_segmentation_heads` of
`plans_manager.get_label_manager(dataset_json)`), and the 32- and
48-width variants return the same with `MODEL_CONFIGS['hrnet32']` and
`MODEL_CONFIGS['hrnet48']`. -/
theorem C1_hrnet_width_selection
    (plans_manager : PlansManager) (dataset_json : DatasetJson)
    (configuration_manager : ConfigurationManager) (num_input_channels : Nat)
    (enable_deep_supervision : Bool) :
    nnUNetTrainer_HRNet18.build_network_architecture plans_manager dataset_json
        configuration_manager num_input_channels enable_deep_supervision
      = get_seg_model (MODEL_CONFIGS "hrnet18")
          (plans_manager.get_label_manager dataset_json).num_segmentation_heads
          num_input_channels
    ∧ nnUNetTrainer_HRNet32.build_network_architecture plans_manager dataset_json
        configuration_manager num_input_channels enable_deep_supervision
      = get_seg_model (MODEL_CONFIGS "hrnet32")
          (plans_manager.get_label_manager dataset_json).num_segmentation_heads
          num_input_channels
    ∧ nnUNetTrainer_HRNet48.build_network_architecture plans_manager dataset_json
        configuration_manager num_input_channels enable_deep_supervision
      = get_seg_model (MODEL_CONFIGS "hrnet48")
          (plans_manager.get_label_manager dataset_json).num_segmentation_heads
          num_input_channels :=
  ⟨rfl, rfl, rfl⟩

/-- Claim C2, counterexample: the claim says `perform_actual_validation`
obtains its train/validation split exclusively from framework calls and
performs no data-splitting logic of its own in this file; but in DDP mode
the file itself shards the framework's validation keys by rank (source
line 95, `val_keys[self.local_rank:: dist.get_world_size()]`), so at the
concrete DDP state below the keys actually used differ from the
framework split's validation keys. -/
theorem C2_counterexample_ddp_sharding_in_file :
    ddpState.val_keys_used ≠ ddpState.do_split.2 := by
  decide

/-- Claim C2, amended: the train/validation split itself comes exclusively
from the framework call `self.do_split()` (every key used is one of its
validation keys, and without DDP they are used unchanged), but in DDP mode
this file additionally shards the validation keys across ranks itself,
as `val_keys[local_rank::world_size]`. -/
theorem C2_split_from_framework_plus_infile_sharding (s : TrainerState) :
    (∀ k, k ∈ s.val_keys_used → k ∈ s.do_split.2)
    ∧ (s.is_ddp = false → s.val_keys_used = s.do_split.2)
    ∧ (s.is_ddp = true →
        s.val_keys_used = sliceEvery s.do_split.2 s.local_rank s.world_size) := by
  refine ⟨?_, ?_, ?_⟩
  · intro k hk
    unfold TrainerState.val_keys_used at hk
    by_cases h : s.is_ddp
    · rw [if_pos h] at hk
      exact mem_of_mem_sliceEvery _ _ _ _ hk
    · rw [if_neg h] at hk
      exact hk
  · intro h
    simp [TrainerState.val_keys_used, h]
  · intro h
    simp [TrainerState.val_keys_used, h]

/-- Witness for the amended C2 at a concrete DDP state. -/
theorem C2_split_witness : "v1" ∈ ddpState.do_split.2 :=
  (C2_split_from_framework_plus_infile_sharding ddpState).1 "v1" (by decide)

/-- Claim C4: all three trainer variants are (direct or indirect)
subclasses of `nnUNetTrainerNoDeepSupervision`, and the overridden
`perform_actual_validation` passes `self.network` itself (not a
deep-supervision head nor any encoder/decoder component of it) as the
network argument of the sliding-window predictor call. -/
theorem C4_subclass_and_whole_network_passed (s : TrainerState) (k : String) :
    (isSubclassOf TrainerClass.nnUNetTrainer_HRNet18
        TrainerClass.nnUNetTrainerNoDeepSupervision = true
     ∧ isSubclassOf TrainerClass.nnUNetTrainer_HRNet32
        TrainerClass.nnUNetTrainerNoDeepSupervision = true
     ∧ isSubclassOf TrainerClass.nnUNetTrainer_HRNet48
        TrainerClass.nnUNetTrainerNoDeepSupervision = true)
    ∧ (sw_call s k).network = s.network :=
  ⟨⟨rfl, rfl, rfl⟩, rfl⟩

/-- Claim C5: the two wider variants are configuration glue only: their
class bodies define `build_network_architecture` and nothing else among
the overridable methods, so their `on_train_start` and
`perform_actual_validation` resolve to `nnUNetTrainer_HRNet18`'s
definitions (hence behave identically on every state and input), and
their `build_network_architecture` differs from the 18-width one only in
which `MODEL_CONFIGS` entry the constructed network uses. -/
theorem C5_wider_variants_only_override_build :
    (definesMethod TrainerClass.nnUNetTrainer_HRNet32 MethodName.build_network_architecture = true
     ∧ definesMethod TrainerClass.nnUNetTrainer_HRNet32 MethodName.on_train_start = false
     ∧ definesMethod TrainerClass.nnUNetTrainer_HRNet32 MethodName.perform_actual_validation = false
     ∧ definesMethod TrainerClass.nnUNetTrainer_HRNet48 MethodName.build_network_architecture = true
     ∧ definesMethod TrainerClass.nnUNetTrainer_HRNet48 MethodName.on_train_start = false
     ∧ definesMethod TrainerClass.nnUNetTrainer_HRNet48 MethodName.perform_actual_validation = false)
    ∧ (classOnTrainStart TrainerClass.nnUNetTrainer_HRNet32
        = classOnTrainStart TrainerClass.nnUNetTrainer_HRNet18
       ∧ classOnTrainStart TrainerClass.nnUNetTrainer_HRNet48
        = classOnTrainStart TrainerClass.nnUNetTrainer_HRNet18
       ∧ classValidation TrainerClass.nnUNetTrainer_HRNet32
        = classValidation TrainerClass.nnUNetTrainer_HRNet18
       ∧ classValidation TrainerClass.nnUNetTrainer_HRNet48
        = classValidation TrainerClass.nnUNetTrainer_HRNet18)
    ∧ (∀ (pm : PlansManager) (dj : DatasetJson) (cm : ConfigurationManager)
          (nic : Nat) (e : Bool),
        nnUNetTrainer_HRNet32.build_network_architecture pm dj cm nic e
          = { nnUNetTrainer_HRNet18.build_network_architecture pm dj cm nic e with
                cfg := MODEL_CONFIGS "hrnet32" }
        ∧ nnUNetTrainer_HRNet48.build_network_architecture pm dj cm nic e
          = { nnUNetTrainer_HRNet18.build_network_architecture pm dj cm nic e with
                cfg := MODEL_CONFIGS "hrnet48" }) :=
  ⟨⟨rfl, rfl, rfl, rfl, rfl, rfl⟩, ⟨rfl, rfl, rfl, rfl⟩,
   fun pm dj cm nic e => ⟨rfl, rfl⟩⟩

/-- Claim C10: `build_network_architecture` of every variant is
independent of its `configuration_manager` and `enable_deep_supervision`
arguments: two calls that agree on the plans manager, the dataset json
and the input-channel count construct the same network. -/
theorem C10_build_ignores_config_and_supervision
    (pm : PlansManager) (dj : DatasetJson) (cm cm' : ConfigurationManager)
    (nic : Nat) (e e' : Bool) :
    nnUNetTrainer_HRNet18.build_network_architecture pm dj cm nic e
      = nnUNetTrainer_HRNet18.build_network_architecture pm dj cm' nic e'
    ∧ nnUNetTrainer_HRNet32.build_network_architecture pm dj cm nic e
      = nnUNetTrainer_HRNet32.build_network_architecture pm dj cm' nic e'
    ∧ nnUNetTrainer_HRNet48.build_network_architecture pm dj cm nic e
      = nnUNetTrainer_HRNet48.build_network_architecture pm dj cm' nic e' :=
  ⟨rfl, rfl, rfl⟩

/-- Claim C6, counterexample: the claim says `on_train_start` writes
`plans.json`, `dataset.json` and the copied fingerprint and modifies no
other persisted artifact; but on the concrete state below it also unpacks
the dataset (writing unpacked data files) and calls
`plot_network_architecture`, which per the source comment (line 76)
produces a pdf in the output folder, so its artifact writes are not
exactly the three claimed ones. -/
theorem C6_counterexample_extra_artifacts :
    artifactWrites (on_train_start_trace baseState)
      ≠ [Effect.saveJson (JsonContent.plansContent baseState.plans_manager.plans)
           (join baseState.output_folder_base "plans.json"),
         Effect.saveJson (JsonContent.datasetContent baseState.dataset_json)
           (join baseState.output_folder_base "dataset.json"),
         Effect.copyFile
           (join baseState.preprocessed_dataset_folder_base "dataset_fingerprint.json")
           (join baseState.output_folder_base "dataset_fingerprint.json")] := by
  decide

/-- Claim C6, amended: `on_train_start` writes exactly
`self.plans_manager.plans` to `plans.json` and `self.dataset_json` to
`dataset.json` in `output_folder_base` via the framework's `save_json`,
and copies `dataset_fingerprint.json` from the preprocessed dataset
folder to `output_folder_base` unchanged; its only other artifact writes
are the conditional dataset unpacking (when `unpack_dataset` holds and
the process is not a non-zero DDP rank) and the network-architecture pdf
produced in the output folder. -/
theorem C6_plan_persistence_artifacts (s : TrainerState) :
    artifactWrites (on_train_start_trace s)
      = (if s.unpack_dataset && (!s.is_ddp || s.local_rank == 0) then
           [Effect.unpackData s.preprocessed_dataset_folder true false
             (max 1 (s.allowed_n_proc_DA / 2))]
         else [])
        ++ [Effect.saveJson (JsonContent.plansContent s.plans_manager.plans)
              (join s.output_folder_base "plans.json"),
            Effect.saveJson (JsonContent.datasetContent s.dataset_json)
              (join s.output_folder_base "dataset.json"),
            Effect.copyFile
              (join s.preprocessed_dataset_folder_base "dataset_fingerprint.json")
              (join s.output_folder_base "dataset_fingerprint.json"),
            Effect.plotArch s.output_folder] := by
  unfold artifactWrites on_train_start_trace
  cases hi : s.was_initialized <;> cases hcu : s.cuda_available <;>
    cases hd : s.is_ddp <;> cases hu : s.unpack_dataset <;>
    cases hr : (s.local_rank == 0) <;>
    simp [List.filter_append, isArtifactWrite]

theorem filter_eq_nil_of_all (p : Effect → Bool) :
    ∀ (l : List Effect), (∀ e ∈ l, p e = false) → l.filter p = [] := by
  intro l
  induction l with
  | nil => intro h; rfl
  | cons a t ih =>
    intro h
    rw [List.filter_cons, h a (List.mem_cons_self a t)]
    exact ih (fun e he => h e (List.mem_cons_of_mem a he))

theorem flatMap_nil_fun (l : List γ) : l.flatMap (fun _ => ([] : List Effect)) = [] := by
  induction l with
  | nil => rfl
  | cons a t ih => simp [List.flatMap_cons, ih]

/-- Claim C7: metric computation is delegated to a framework call and
gated by rank: the only `compute_metrics_on_folder` call in the trace of
`perform_actual_validation` is the final one over the ground-truth
segmentations folder and the validation output folder, writing
`summary.json`, and it happens if and only if the trainer is not in DDP
mode or its `local_rank` is 0. -/
theorem C7_metrics_rank_gated (s : TrainerState) (sp : Bool) :
    metricsCalls (perform_actual_validation_trace s sp)
      = if !s.is_ddp || s.local_rank == 0 then
          [Effect.computeMetrics
            (join s.preprocessed_dataset_folder_base "gt_segmentations")
            (join s.output_folder "validation")
            (join (join s.output_folder "validation") "summary.json")
            s.plans_manager.image_reader_writer s.dataset_json.file_ending
            (if s.label_manager.has_regions then
               LabelsOrRegions.regions s.label_manager.foreground_regions
             else LabelsOrRegions.labels s.label_manager.foreground_labels)
            s.label_manager.ignore_label]
        else [] := by
  have hcase : ∀ k : String, (case_effects s sp k).filter isMetricsCall = [] := by
    intro k
    unfold case_effects
    cases h2 : s.configuration_manager.next_stage_names <;>
      cases h1 : s.should_i_save_to_file k <;>
      simp [List.filter_append, isMetricsCall]
  unfold metricsCalls perform_actual_validation_trace
  simp only [List.filter_append, filter_flatMap, hcase, flatMap_nil_fun]
  cases h2 : s.configuration_manager.next_stage_names <;>
    cases hd : s.is_ddp <;> cases hr : (s.local_rank == 0) <;>
    simp [isMetricsCall, List.filter_map, Function.comp]

/-- Claim C3: for every validation case key, the prediction in
`perform_actual_validation` is computed by the framework function
`predict_sliding_window_return_logits` applied to the network and the
case data, with `tile_size` equal to the configured `patch_size`,
`tile_step_size` 0.5, `use_gaussian` True, and a precomputed Gaussian
equal to `compute_gaussian(patch_size, sigma_scale=1/8)`; the file
implements no tiling or blending itself (in the embedding the predictor
is a free framework call whose result is exported unchanged, and the
export effect for the key appears in the trace with exactly this
prediction). -/
theorem C3_sliding_window_delegated (s : TrainerState) (sp : Bool) (k : String)
    (hk : k ∈ s.val_keys_used) :
    prediction_for s k
      = tensor_cpu_numpy
          (predict_sliding_window_return_logits s.network (case_input s k)
            s.label_manager.num_segmentation_heads
            s.configuration_manager.patch_size
            s.inference_allowed_mirroring_axes
            (1 / 2) true
            (torch_from_numpy (compute_gaussian s.configuration_manager.patch_size (1 / 8)))
            true false s.device)
    ∧ (sw_call s k).tile_size = s.configuration_manager.patch_size
    ∧ (sw_call s k).tile_step_size = 1 / 2
    ∧ (sw_call s k).use_gaussian = true
    ∧ (sw_call s k).precomputed_gaussian.values
        = compute_gaussian s.configuration_manager.patch_size (1 / 8)
    ∧ Effect.exportPred
        (if s.should_i_save_to_file k then
           PredOrPath.file (join (join s.output_folder "validation") k ++ ".npy")
         else PredOrPath.arr (prediction_for s k))
        (s.load_case k).properties s.configuration_manager s.plans_manager.plans
        s.dataset_json (join (join s.output_folder "validation") k) sp
      ∈ perform_actual_validation_trace s sp := by
  refine ⟨rfl, rfl, rfl, rfl, rfl, ?_⟩
  have he : Effect.exportPred
      (if s.should_i_save_to_file k then
         PredOrPath.file (join (join s.output_folder "validation") k ++ ".npy")
       else PredOrPath.arr (prediction_for s k))
      (s.load_case k).properties s.configuration_manager s.plans_manager.plans
      s.dataset_json (join (join s.output_folder "validation") k) sp
      ∈ case_effects s sp k := by
    unfold case_effects
    cases h1 : s.should_i_save_to_file k <;>
      cases h2 : s.configuration_manager.next_stage_names <;>
      simp
  unfold perform_actual_validation_trace
  exact List.mem_append_left _ (List.mem_append_left _ (List.mem_append_left _
    (List.mem_append_right _ (List.mem_flatMap.2 ⟨k, hk, he⟩))))

/-- Witness for C3 at a concrete state and key. -/
theorem C3_sliding_window_delegated_witness :
    prediction_for baseState "v1"
      = tensor_cpu_numpy
          (predict_sliding_window_return_logits baseState.network (case_input baseState "v1")
            baseState.label_manager.num_segmentation_heads
            baseState.configuration_manager.patch_size
            baseState.inference_allowed_mirroring_axes
            (1 / 2) true
            (torch_from_numpy
              (compute_gaussian baseState.configuration_manager.patch_size (1 / 8)))
            true false baseState.device) :=
  (C3_sliding_window_delegated baseState false "v1" (by decide)).1

/-- Claim C8, counterexample: the claim quantifies over every list of
validation keys, but when the list contains a duplicate the per-rank
shards are not pairwise disjoint: for `val_keys = ["a", "a"]` and
`W = 2`, the shards at ranks 0 and 1 are both `["a"]`. -/
theorem C8_counterexample_duplicate_keys :
    ¬ List.Disjoint (sliceEvery ["a", "a"] 0 2) (sliceEvery ["a", "a"] 1 2) := by
  intro h
  exact h (a := "a") (by decide) (by decide)

/-- Claim C8, amended: for every world size `W >= 1`, the per-rank shards
`val_keys[r::W]` are pairwise disjoint whenever the validation keys are
pairwise distinct, and (for every list, duplicates included) their
multiset sum equals the original list, so every validation case is
predicted by exactly one rank. -/
theorem C8_sharding_partition {α : Type} [DecidableEq α] (l : List α) (W : Nat)
    (hW : 1 ≤ W) :
    (l.Nodup → ∀ r r', r < W → r' < W → r ≠ r' →
        List.Disjoint (sliceEvery l r W) (sliceEvery l r' W))
    ∧ (∑ r in Finset.range W, ((sliceEvery l r W : List α) : Multiset α))
        = (l : Multiset α) := by
  obtain ⟨m, rfl⟩ : ∃ m, W = m + 1 := ⟨W - 1, by omega⟩
  exact ⟨fun hnd r r' hr hr' hne =>
           sliceEvery_disjoint_of_nodup l m r r' hnd hr hr' hne,
         sum_sliceEvery m l⟩

/-- Witness for the amended C8 on a concrete key list and world size. -/
theorem C8_sharding_partition_witness :
    List.Disjoint (sliceEvery ["a", "b", "c"] 0 2) (sliceEvery ["a", "b", "c"] 1 2)
    ∧ (∑ r in Finset.range 2, ((sliceEvery ["a", "b", "c"] r 2 : List String) : Multiset String))
        = (["a", "b", "c"] : Multiset String) :=
  ⟨(C8_sharding_partition ["a", "b", "c"] 2 (by decide)).1 (by decide) 0 1
      (by decide) (by decide) (by decide),
   (C8_sharding_partition ["a", "b", "c"] 2 (by decide)).2⟩

/-- Claim C9: when `configuration_manager.next_stage_names` is not None,
`perform_actual_validation` creates the `predicted_next_stage/<name>`
directories, prints `Cascade not supported here!` once per validation
case, and writes no next-stage prediction file: every file path written
by its trace lies in the validation output folder
(`<output_folder>/validation/...`), never in the created
`predicted_next_stage` directories.  The trace function is total, so no
exception is raised on this path. -/
theorem C9_cascade_silently_disabled (s : TrainerState) (sp : Bool) (ns : List String)
    (h : s.configuration_manager.next_stage_names = some ns) :
    (∀ n ∈ ns, Effect.mkdirp (join (join s.output_folder_base "predicted_next_stage") n)
        ∈ perform_actual_validation_trace s sp)
    ∧ (perform_actual_validation_trace s sp).count
        (Effect.printStdout "Cascade not supported here!") = s.val_keys_used.length
    ∧ ∀ e ∈ perform_actual_validation_trace s sp, ∀ p ∈ fileWriteTargets e,
        ∃ x, p = join (join s.output_folder "validation") x := by
  refine ⟨?_, ?_, ?_⟩
  · intro n hn
    unfold perform_actual_validation_trace
    rw [h]
    exact List.mem_append_left _ (List.mem_append_left _ (List.mem_append_left _
      (List.mem_append_left _ (List.mem_append_right _ (List.mem_map_of_mem _ hn)))))
  · have hcase : ∀ k ∈ s.val_keys_used,
        (case_effects s sp k).count (Effect.printStdout "Cascade not supported here!") = 1 := by
      intro k hk
      unfold case_effects
      rw [h]
      cases hd : s.should_i_save_to_file k <;>
        simp [List.count_append, List.count_cons]
    unfold perform_actual_validation_trace
    rw [h]
    simp only [List.count_append]
    rw [count_flatMap_eq_length _ _ _ hcase]
    cases hd : s.is_ddp <;> cases hr : (s.local_rank == 0) <;>
      simp [List.count_cons, List.count_eq_zero, List.mem_map]
  · intro e he p hp
    unfold perform_actual_validation_trace at he
    rw [h] at he
    rcases List.mem_append.1 he with hA | hML
    · rcases List.mem_append.1 hA with hB | hBar
      · rcases List.mem_append.1 hB with hC | hWait
        · rcases List.mem_append.1 hC with hD | hFlat
          · rcases List.mem_append.1 hD with hHead | hMap
            · simp only [List.mem_cons, List.not_mem_nil, or_false] at hHead
              rcases hHead with rfl | rfl <;> simp [fileWriteTargets] at hp
            · rcases List.mem_map.1 hMap with ⟨n, hn, rfl⟩
              simp [fileWriteTargets] at hp
          · rcases List.mem_flatMap.1 hFlat with ⟨a, ha, hea⟩
            unfold case_effects at hea
            rw [h] at hea
            cases hd : s.should_i_save_to_file a <;> simp only [hd] at hea <;>
              simp only [Bool.false_eq_true, if_false, if_true, List.mem_append,
                List.mem_cons, List.not_mem_nil, or_false, or_assoc] at hea
            · rcases hea with rfl | rfl | rfl
              · simp [fileWriteTargets] at hp
              · simp only [fileWriteTargets, List.mem_singleton] at hp
                exact ⟨a, hp⟩
              · simp [fileWriteTargets] at hp
            · rcases hea with rfl | rfl | rfl | rfl
              · simp [fileWriteTargets] at hp
              · simp only [fileWriteTargets, List.mem_singleton] at hp
                refine ⟨a ++ ".npy", ?_⟩
                rw [hp]
                simp [join, String.append_assoc]
              · simp only [fileWriteTargets, List.mem_singleton] at hp
                exact ⟨a, hp⟩
              · simp [fileWriteTargets] at hp
        · simp only [List.mem_cons, List.not_mem_nil, or_false] at hWait
          rcases hWait with rfl | rfl | rfl <;> simp [fileWriteTargets] at hp
      · split at hBar
        · simp only [List.mem_singleton] at hBar
          subst hBar
          simp [fileWriteTargets] at hp
        · simp at hBar
    · split at hML
      · simp only [List.mem_singleton] at hML
        subst hML
        simp only [fileWriteTargets, List.mem_singleton] at hp
        exact ⟨"summary.json", hp⟩
      · simp at hML

/-- Witness for C9 at a concrete cascaded state. -/
theorem C9_cascade_silently_disabled_witness :
    Effect.mkdirp (join (join casState.output_folder_base "predicted_next_stage") "3d_fullres")
      ∈ perform_actual_validation_trace casState false
    ∧ (perform_actual_validation_trace casState false).count
        (Effect.printStdout "Cascade not supported here!") = casState.val_keys_used.length :=
  ⟨(C9_cascade_silently_disabled casState false ["3d_fullres"] rfl).1 "3d_fullres" (by decide),
   (C9_cascade_silently_disabled casState false ["3d_fullres"] rfl).2.1⟩
